import Mathlib

/-!
# Verification of the AI chat app's conversation store and stream assembler

Shallow embedding of the core of `ai-chat-app-angular`:

* `src/app/services/chat-storage.service.ts` (`ChatStorageService`): the
  conversation persistence store, modelled as pure functions on an explicit
  `StoreState` (localStorage cells keyed by conversation id, the metadata
  index, the active-conversation id, the current-conversation subject's
  value, the storage-error subject's value, and the debounced-save queue).
* the AI completion service (`AiService`): `formatConversationForApi` and
  the streaming response assembler `setupStreamingRequest`, modelled as a
  fold over classified stream lines.

JavaScript `Date.now()` and `uuidv4()` are modelled as explicit `now` /
`freshId` parameters.  Optional TypeScript fields are modelled as `Option`
(or as `Bool` where only JS truthiness of the field is ever observed).
-/

namespace ChatApp

/-- The `MessageSender` enum from `src/app/models/chat.interface.ts`
(`USER = "user"`, `AI = "ai"`, `SYSTEM = "system"`). -/
inductive MessageSender where
  | user
  | ai
  | system
deriving DecidableEq, Repr

/-- Interface `MessageMetadata` from `chat.interface.ts`.  All fields are optional in
the TypeScript interface. -/
structure MessageMetadata where
  tokens : Option Nat := none
  processingTime : Option Nat := none
  model : Option String := none
  promptTokens : Option Nat := none
  completionTokens : Option Nat := none
  totalTokens : Option Nat := none
  finishReason : Option String := none
deriving DecidableEq, Repr

/-- Interface `ChatMessage` from `chat.interface.ts`.  The optional booleans
`isError?` / `isPending?` are modelled as `Bool` with `false` standing for
`undefined`: the code only ever observes their JS truthiness. -/
structure ChatMessage where
  id : String
  sender : MessageSender
  content : String
  timestamp : Nat
  isError : Bool := false
  isPending : Bool := false
  metadata : Option MessageMetadata := none
deriving DecidableEq, Repr

/-- Interface `ConversationMetadata` from `chat.interface.ts`. -/
structure ConversationMetadata where
  id : String
  title : Option String := none
  createdAt : Nat
  updatedAt : Nat
  totalMessages : Nat
  userMessageCount : Nat
  aiMessageCount : Nat
  totalTokensUsed : Option Nat := none
  tags : List String := []
  isFavorite : Bool := false
  isArchived : Bool := false
deriving DecidableEq, Repr

/-- Interface `ChatHistory` from `chat.interface.ts`: one conversation. -/
structure ChatHistory where
  messages : List ChatMessage
  metadata : ConversationMetadata
deriving DecidableEq, Repr

/-- Interface `OpenAIChatMessage` from `chat.interface.ts`; the `role` union type is
modelled as a `String`. -/
structure OpenAIChatMessage where
  role : String
  content : String
  name : Option String := none
deriving DecidableEq, Repr

/-- Constant `environment.app.maxHistoryItems` from
`src/environments/environment.development.ts` (the only environment file in
the repository); bound to `ChatStorageService.MAX_HISTORY_ITEMS`. -/
def MAX_HISTORY_ITEMS : Nat := 100

namespace AiService

/-- The fixed system instruction prepended by
`AiService.formatConversationForApi`. -/
def systemInstruction : String :=
  "You are a helpful AI assistant. Provide concise, accurate, and helpful responses."

/-- Method `AiService.formatConversationForApi` (part_002, lines 255-276): starts
from the fixed system message, loops over `history` skipping entries with
`sender === SYSTEM` or truthy `isError`, maps each kept entry to role
`"user"` (user sender) or `"assistant"` (otherwise) with unchanged content,
and finally pushes the new user turn. -/
def formatConversationForApi (history : List ChatMessage)
    (newUserMessage : String) : List OpenAIChatMessage :=
  let formattedMessages : List OpenAIChatMessage :=
    [{ role := "system", content := systemInstruction }]
  let formattedMessages := history.foldl
    (fun acc message =>
      if message.sender = MessageSender.system ∨ message.isError = true then acc
      else
        acc ++ [{ role := if message.sender = MessageSender.user then "user" else "assistant",
                  content := message.content }])
    formattedMessages
  formattedMessages ++ [{ role := "user", content := newUserMessage }]

end AiService

/-! ## Stream assembler (`AiService.setupStreamingRequest`, part_002 lines 139-236)

The streaming path reads chunks, splits them on `"\n"`, filters out blank
lines and the `"data: [DONE]"` sentinel, strips the `"data: "` marker and
`JSON.parse`s each remaining line inside a per-line `try`/`catch`.  We model
the stream as the list of those post-filter lines, each classified by its
parse outcome: `parsed e` for a line whose JSON carries the (optional)
delta content, usage record and finish reason, `malformed` for a line on
which `JSON.parse` throws (the `catch` only logs, so the line is skipped).
A line that is empty after stripping (`if (jsonStr)`) is likewise a no-op
and is covered by `malformed`. -/

namespace Assembler

/-- The JS spread `{...accumulatedMessage.metadata, ...}` of a possibly
`undefined` metadata object: spreading `undefined` contributes no fields. -/
def spreadMetadata (m : Option MessageMetadata) : MessageMetadata :=
  m.getD {}

/-- Interface `OpenAIUsage` from `chat.interface.ts`. -/
structure OpenAIUsage where
  prompt_tokens : Nat
  completion_tokens : Nat
  total_tokens : Nat
deriving DecidableEq, Repr

/-- The fields of one parsed stream line that the assembler inspects:
`json.choices[0]?.delta?.content`, `json.usage`,
`json.choices[0]?.finish_reason`. -/
structure StreamEvent where
  deltaContent : Option String := none
  usage : Option OpenAIUsage := none
  finishReason : Option String := none
deriving DecidableEq, Repr

/-- One post-filter stream line, classified by its parse outcome. -/
inductive StreamLine where
  | parsed (e : StreamEvent)
  | malformed
deriving DecidableEq, Repr

/-- The assembler's state: the `accumulatedMessage`, the list of messages
pushed through `responseSubject.next` so far, and the value of the
service-level `tokenUsage` subject (updated by `updateTokenUsage`). -/
structure AssemblerState where
  acc : ChatMessage
  emitted : List ChatMessage
  tokenUsage : Nat
deriving DecidableEq, Repr

/-- Processing of one line inside the `for (const line of lines)` loop
(part_002 lines 186-218).  A truthy content delta is appended to the
accumulated content and a copy of the message is emitted; a usage record
bumps the cumulative token usage and is merged into the message metadata;
a truthy finish reason is recorded in the metadata; a malformed line is
skipped. -/
def processLine (st : AssemblerState) (line : StreamLine) : AssemblerState :=
  match line with
  | .malformed => st
  | .parsed e =>
    let st :=
      match e.deltaContent with
      | some d =>
          if d ≠ "" then
            let acc := { st.acc with content := st.acc.content ++ d }
            { st with
              acc := acc,
              emitted := st.emitted ++ [acc] }
          else st
      | none => st
    let st :=
      match e.usage with
      | some u =>
          { st with
            tokenUsage := st.tokenUsage + u.total_tokens,
            acc := { st.acc with
              metadata := some
                ({ spreadMetadata st.acc.metadata with
                   totalTokens := some u.total_tokens,
                   promptTokens := some u.prompt_tokens,
                   completionTokens := some u.completion_tokens }) } }
      | none => st
    match e.finishReason with
    | some r =>
        if r ≠ "" then
          { st with
            acc := { st.acc with
              metadata := some
                ({ spreadMetadata st.acc.metadata with finishReason := some r }) } }
        else st
    | none => st

/-- End-of-input handling (part_002 lines 166-177): mark the message as no
longer pending, attach processing time and model to its metadata, emit it
once more and complete. -/
def finishStream (modelName : String) (startTime now : Nat)
    (st : AssemblerState) : AssemblerState :=
  let acc := { st.acc with
    isPending := false,
    metadata := some
      ({ spreadMetadata st.acc.metadata with
         processingTime := some (now - startTime),
         model := some modelName }) }
  { st with acc := acc, emitted := st.emitted ++ [acc] }

/-- The fresh `accumulatedMessage` allocated by `streamChatCompletion`
(part_002 lines 120-126). -/
def initialMessage (id : String) (ts : Nat) : ChatMessage :=
  { id := id, sender := MessageSender.ai, content := "", timestamp := ts,
    isPending := true }

/-- Initial assembler state: fresh pending message, nothing emitted,
current cumulative token usage `tok0`. -/
def initialState (id : String) (ts tok0 : Nat) : AssemblerState :=
  { acc := initialMessage id ts, emitted := [], tokenUsage := tok0 }

/-- The whole streaming run: fold `processLine` over the delivered lines,
then apply the end-of-input handling. -/
def processStream (modelName : String) (startTime now : Nat) (id : String)
    (ts tok0 : Nat) (lines : List StreamLine) : AssemblerState :=
  finishStream modelName startTime now
    (lines.foldl processLine (initialState id ts tok0))

/-- A stream line carrying just a content delta. -/
def deltaLine (d : String) : StreamLine :=
  .parsed { deltaContent := some d }

/-- The non-empty prefix concatenations `d1, d1+d2, ..., d1+...+dn`. -/
def prefConcats : List String → List String
  | [] => []
  | d :: ds => d :: (prefConcats ds).map (fun p => d ++ p)

/-- Concatenation of a list of strings. -/
def concatAll : List String → String
  | [] => ""
  | d :: ds => d ++ concatAll ds

end Assembler

/-! ## Conversation store (`ChatStorageService`, chat-storage.service.ts)

Typed model.  `localStorage` cells holding conversation bodies are keyed by
`` `${CHAT_HISTORY_KEY}_${id}` ``; with the fixed prefix this is a map from
conversation id to conversation, and the separately-keyed
`` `${CHAT_HISTORY_KEY}_index` `` record is the `index` field.  The three
`BehaviorSubject`s are the `activeConversationId`, `current` and
`storageError` fields; the debounced `saveSubject` queue is `pendingSave`
(a value pushed there is *not* yet written to `storage`).  In this typed
model a stored cell is always a well-typed `ChatHistory`, which is the
case for every cell the service itself writes; the separate raw model
below covers unparsable / malformed persisted data. -/

namespace Store

/-- The store's state. -/
structure StoreState where
  storage : String → Option ChatHistory
  index : List ConversationMetadata
  activeConversationId : Option String
  current : Option ChatHistory
  storageError : Option String
  pendingSave : Option ChatHistory

/-- Point update of a storage map (`localStorage.setItem`). -/
def setStorage (f : String → Option ChatHistory) (key : String)
    (v : Option ChatHistory) : String → Option ChatHistory :=
  fun k => if k = key then v else f k

/-- Method `updateConversationInIndex` (lines 254-266): replace the first index
entry whose id matches (`findIndex`), else push at the end. -/
def updateConversationInIndex :
    List ConversationMetadata → ConversationMetadata → List ConversationMetadata
  | [], m => [m]
  | c :: rest, m =>
      if c.id = m.id then m :: rest else c :: updateConversationInIndex rest m

/-- Method `updateConversationTimestamp` (lines 243-252): set `updatedAt` of the
first index entry whose id matches; if none matches, do nothing. -/
def updateTimestampInIndex (now : Nat) (conversationId : String) :
    List ConversationMetadata → List ConversationMetadata
  | [] => []
  | c :: rest =>
      if c.id = conversationId then { c with updatedAt := now } :: rest
      else c :: updateTimestampInIndex now conversationId rest

/-- Method `saveConversation` (lines 226-241): stamp `updatedAt := Date.now()`
onto the conversation object, write its storage cell, update the index
entry, and clear the storage-error subject.  The (mutated) conversation
object is returned alongside the new state because callers keep using it. -/
def saveConversation (now : Nat) (s : StoreState) (conversation : ChatHistory) :
    StoreState × ChatHistory :=
  let conv :=
    { conversation with
      metadata := { conversation.metadata with updatedAt := now } }
  ({ s with
     storage := setStorage s.storage conv.metadata.id (some conv),
     index := updateConversationInIndex s.index conv.metadata,
     storageError := none },
   conv)

/-- Title defaulting in `createNewConversation`: a missing or empty `title`
argument falls back to the generated `Conversation <now>` (JS `||` on a
falsy string). -/
def defaultTitle (title : Option String) (now : Nat) : String :=
  match title with
  | some t => if t ≠ "" then t else "Conversation " ++ toString now
  | none => "Conversation " ++ toString now

/-- Method `createNewConversation` (lines 156-195): build fresh zeroed metadata and
an empty conversation, `saveConversation` it (which already pushes the
metadata into the index), then push the same metadata onto the index array a
second time (the code re-reads the subject's array, which `saveConversation`
already extended, and pushes again), make the conversation active, and
return its id. -/
def createNewConversation (now : Nat) (freshId : String)
    (title : Option String) (s : StoreState) : StoreState × String :=
  let metadata : ConversationMetadata :=
    { id := freshId,
      title := some (defaultTitle title now),
      createdAt := now,
      updatedAt := now,
      totalMessages := 0,
      userMessageCount := 0,
      aiMessageCount := 0,
      totalTokensUsed := some 0,
      tags := [],
      isFavorite := false,
      isArchived := false }
  let newConversation : ChatHistory := { messages := [], metadata := metadata }
  let (s1, conv) := saveConversation now s newConversation
  let s2 :=
    { s1 with
      index := s1.index ++ [conv.metadata],
      activeConversationId := some freshId,
      current := some conv }
  (s2, freshId)

/-- Method `validateConversation` (lines 546-575) restricted to well-typed
`ChatHistory` values (the only values the typed model stores).  For a typed
value, the conversation, its `metadata` and `messages` are present objects
and hence truthy, `createdAt`/`updatedAt` are numbers, and `messages` is an
array, so those checks cannot fire.  What remains of the JS truthiness
checks: `metadata.id` must be non-empty, and each message's `id`, `sender`,
`content`, `timestamp` must be truthy — a `MessageSender` enum value is one
of the non-empty strings "user"/"ai"/"system", hence always truthy, so the
live checks are non-empty message id and content and non-zero timestamp. -/
def validateChatHistory (conversation : ChatHistory) : Except String Unit :=
  if conversation.metadata.id = "" then
    Except.error "Invalid conversation metadata"
  else if conversation.messages.all
      (fun m => m.id != "" && m.content != "" && m.timestamp != 0) then
    Except.ok ()
  else
    Except.error "Invalid message format: missing required properties"

/-- Method `loadConversation` (lines 197-224), typed storage: a missing (or falsy)
cell or a validation failure emits `Failed to load conversation ...` on the
error subject and returns `false`, touching nothing else; on success the
conversation becomes active, is republished, and the index entry's
`updatedAt` is refreshed. -/
def loadConversation (now : Nat) (s : StoreState) (conversationId : String) :
    StoreState × Bool :=
  match s.storage conversationId with
  | none =>
      ({ s with
         storageError := some ("Failed to load conversation " ++ conversationId
           ++ ": Conversation " ++ conversationId ++ " not found") },
       false)
  | some conversation =>
      match validateChatHistory conversation with
      | Except.error e =>
          ({ s with
             storageError := some ("Failed to load conversation "
               ++ conversationId ++ ": " ++ e) },
           false)
      | Except.ok _ =>
          ({ s with
             activeConversationId := some conversationId,
             current := some conversation,
             index := updateTimestampInIndex now conversationId s.index },
           true)

/-- The pure per-conversation effect of `addMessage` (lines 310-329): push
the message, bump `totalMessages`, bump the sender-specific counter,
accumulate token usage for AI messages with truthy `metadata.totalTokens`,
then evict the oldest messages down to `MAX_HISTORY_ITEMS`
(`messages.slice(length - MAX_HISTORY_ITEMS)`). -/
def convAdd (maxHistoryItems : Nat) (c : ChatHistory) (message : ChatMessage) :
    ChatHistory :=
  let msgs := c.messages ++ [message]
  let md := { c.metadata with totalMessages := c.metadata.totalMessages + 1 }
  let md :=
    if message.sender = MessageSender.user then
      { md with userMessageCount := md.userMessageCount + 1 }
    else if message.sender = MessageSender.ai then
      let md2 := { md with aiMessageCount := md.aiMessageCount + 1 }
      match message.metadata with
      | some mm =>
          match mm.totalTokens with
          | some t =>
              if t ≠ 0 then
                { md2 with totalTokensUsed := some (md2.totalTokensUsed.getD 0 + t) }
              else md2
          | none => md2
      | none => md2
    else md
  let msgs :=
    if msgs.length > maxHistoryItems then msgs.drop (msgs.length - maxHistoryItems)
    else msgs
  { messages := msgs, metadata := md }

/-- Method `addMessage` (lines 300-334) when a current conversation exists: apply
`convAdd`, republish the updated conversation synchronously, and push it
onto the debounced save queue (`saveSubject.next`) — no immediate write. -/
def addMessageBody (maxHistoryItems : Nat) (s : StoreState) (c : ChatHistory)
    (message : ChatMessage) : StoreState :=
  let conv := convAdd maxHistoryItems c message
  { s with
    current := some conv,
    pendingSave := some conv }

/-- Method `addMessage` (lines 300-334).  With no current conversation it first
creates one (`createNewConversation`), loads it back (`loadConversation`)
and recurses; the recursion is inlined since after creation a current
conversation always exists. -/
def addMessage (maxHistoryItems now : Nat) (freshId : String) (s : StoreState)
    (message : ChatMessage) : StoreState :=
  match s.current with
  | some c => addMessageBody maxHistoryItems s c message
  | none =>
      let (s1, conversationId) := createNewConversation now freshId none s
      let s2 := (loadConversation now s1 conversationId).1
      match s2.current with
      | some c => addMessageBody maxHistoryItems s2 c message
      | none => s2

/-- Method `clearCurrentConversation` (lines 336-365): with no current conversation
return `false`; otherwise reset messages and all counters on the active
conversation (keeping the rest of its metadata), republish it, and persist
it immediately through `saveConversation` — not through the debounced
queue. -/
def clearCurrentConversation (now : Nat) (s : StoreState) : StoreState × Bool :=
  match s.current with
  | none => (s, false)
  | some currentConversation =>
      let clearedConversation : ChatHistory :=
        { messages := [],
          metadata :=
            { currentConversation.metadata with
              totalMessages := 0,
              userMessageCount := 0,
              aiMessageCount := 0,
              totalTokensUsed := some 0,
              updatedAt := now } }
      let s1 := { s with current := some clearedConversation }
      let (s2, saved) := saveConversation now s1 clearedConversation
      ({ s2 with current := some saved }, true)

/-- Method `exportConversation` (lines 411-434): resolve the id (a falsy argument
falls back to the active id; a falsy resolved id is an error), read the
stored cell (returned verbatim — the code returns the raw persisted JSON
string, modelled by the stored value it parses to), and on any failure emit
an error and return nothing. -/
def exportConversation (s : StoreState) (conversationId : Option String) :
    StoreState × Option ChatHistory :=
  let id : Option String :=
    match conversationId with
    | some cid => if cid ≠ "" then some cid else s.activeConversationId
    | none => s.activeConversationId
  match id with
  | none =>
      ({ s with
         storageError := some ("Failed to export conversation: "
           ++ "No conversation ID provided and no active conversation") },
       none)
  | some i =>
      if i = "" then
        ({ s with
           storageError := some ("Failed to export conversation: "
             ++ "No conversation ID provided and no active conversation") },
         none)
      else
        match s.storage i with
        | none =>
            ({ s with
               storageError := some ("Failed to export conversation: Conversation "
                 ++ i ++ " not found") },
             none)
        | some c => (s, some c)

/-- The title annotation applied on an import id collision:
`` `${title || "Imported Conversation"} (Imported)` ``. -/
def importedTitle (title : Option String) : String :=
  (match title with
   | some t => if t ≠ "" then t else "Imported Conversation"
   | none => "Imported Conversation") ++ " (Imported)"

/-- Method `importConversation` (lines 462-502).  The JSON-string argument is
modelled by its parse outcome (`Except.error` carries the `JSON.parse`
error's message; for the export round-trip the string is the exact stored
representation, whose parse is the stored value).  Validation failure or a
parse failure emits an error and returns `null`; on an id collision with
`replace = false` the conversation gets a fresh id and an annotated title;
the conversation is then saved (stamping `updatedAt`), activated and
republished, and its (possibly new) id returned. -/
def importConversation (now : Nat) (freshId : String) (s : StoreState)
    (json : Except String ChatHistory) (replace : Bool) :
    StoreState × Option String :=
  match json with
  | Except.error parseError =>
      ({ s with
         storageError := some ("Failed to import conversation: " ++ parseError) },
       none)
  | Except.ok conversation =>
      match validateChatHistory conversation with
      | Except.error e =>
          ({ s with
             storageError := some ("Failed to import conversation: " ++ e) },
           none)
      | Except.ok _ =>
          let idExists := s.index.any (fun c => c.id == conversation.metadata.id)
          let conv :=
            if idExists && !replace then
              { conversation with
                metadata :=
                  { conversation.metadata with
                    id := freshId,
                    title := some (importedTitle conversation.metadata.title) } }
            else conversation
          let (s1, saved) := saveConversation now s conv
          ({ s1 with
             activeConversationId := some saved.metadata.id,
             current := some saved },
           some saved.metadata.id)

/-- Method `toggleFavorite` (lines 664-692): a missing cell emits an error and
returns `false` with nothing else changed; otherwise the flag is flipped,
the conversation saved, republished if it is the active one, and the *new*
flag value returned — so a `false` return also occurs on a successful
un-favorite. -/
def toggleFavorite (now : Nat) (s : StoreState) (conversationId : String) :
    StoreState × Bool :=
  match s.storage conversationId with
  | none =>
      ({ s with
         storageError := some ("Failed to toggle favorite for " ++ conversationId
           ++ ": Conversation " ++ conversationId ++ " not found") },
       false)
  | some conversation =>
      let conv :=
        { conversation with
          metadata :=
            { conversation.metadata with
              isFavorite := !conversation.metadata.isFavorite } }
      let (s1, saved) := saveConversation now s conv
      let s2 :=
        if s1.activeConversationId = some conversationId then
          { s1 with current := some saved }
        else s1
      (s2, saved.metadata.isFavorite)

/-- One Store-owned mutation of the active conversation, with its call-time
`Date.now()` / `uuidv4()` values. -/
inductive StoreOp where
  | createOp (now : Nat) (freshId : String) (title : Option String)
  | addOp (now : Nat) (freshId : String) (message : ChatMessage)
  | clearOp (now : Nat)

/-- Run one Store-owned mutation (at the service's real message cap). -/
def runOp (s : StoreState) : StoreOp → StoreState
  | .createOp now freshId title => (createNewConversation now freshId title s).1
  | .addOp now freshId message => addMessage MAX_HISTORY_ITEMS now freshId s message
  | .clearOp now => (clearCurrentConversation now s).1

/-- Run a sequence of Store-owned mutations. -/
def runOps (s : StoreState) (ops : List StoreOp) : StoreState :=
  ops.foldl runOp s

/-- A sequence of `addMessage` calls, each with its own call-time `now` and
`freshId`. -/
def addMessages (maxHistoryItems : Nat) (s : StoreState)
    (calls : List (Nat × String × ChatMessage)) : StoreState :=
  calls.foldl (fun st p => addMessage maxHistoryItems p.1 p.2.1 st p.2.2) s

/-- The metadata counter invariant of §3:
`userMessageCount + aiMessageCount ≤ totalMessages`. -/
def countersOk (md : ConversationMetadata) : Bool :=
  decide (md.userMessageCount + md.aiMessageCount ≤ md.totalMessages)

/-- The counter invariant for the active conversation (vacuously true when
there is none). -/
def stateCountersOk (s : StoreState) : Bool :=
  match s.current with
  | some c => countersOk c.metadata
  | none => true

/-- Helper: `lastN n l` is the suffix of the last `n` elements (`slice(len - n)`). -/
def lastN (n : Nat) (l : List ChatMessage) : List ChatMessage :=
  l.drop (l.length - n)

/-- The per-conversation effect of a sequence of `addMessage` calls. -/
def convFold (maxHistoryItems : Nat) (c : ChatHistory)
    (ms : List ChatMessage) : ChatHistory :=
  ms.foldl (convAdd maxHistoryItems) c

end Store

/-! ## Raw persistence model (`loadConversation` over untyped stored data)

`loadConversation` `JSON.parse`s whatever string sits in localStorage and
`validateConversation` inspects the parsed value with JS truthiness and
`typeof` checks, so for claim C5 the stored cell must be modelled below the
typed level: as a JSON value, or as a string on which `JSON.parse` throws. -/

namespace RawStore

/-- A JSON value (numbers are modelled as integers; no number in the data
model is fractional). -/
inductive Json where
  | null
  | bool (b : Bool)
  | num (n : Int)
  | str (s : String)
  | arr (elems : List Json)
  | obj (fields : List (String × Json))

/-- JS truthiness of a parsed JSON value (`null`, `false`, `0` and `""` are
falsy; objects and arrays are truthy). -/
def Json.truthy : Json → Bool
  | .null => false
  | .bool b => b
  | .num n => n != 0
  | .str s => s != ""
  | .arr _ => true
  | .obj _ => true

/-- First binding of a key in an object's field list. -/
def getField : List (String × Json) → String → Json
  | [], _ => .null
  | (k, v) :: rest, key => if k = key then v else getField rest key

/-- JS property access `x.k`: `undefined` (modelled as `null`, which the
validation code only ever tests for truthiness or `typeof`) on a missing
key or a non-object. -/
def Json.get : Json → String → Json
  | .obj fields, key => getField fields key
  | _, _ => .null

/-- Check `typeof x === "number"`. -/
def Json.isNumber : Json → Bool
  | .num _ => true
  | _ => false

/-- Method `validateConversation` (lines 546-575) on a parsed JSON value, with the
code's check order and thrown messages: presence/truthiness of the
conversation, its `metadata` and `messages`; truthy `metadata.id` and
numeric `createdAt`/`updatedAt`; `Array.isArray(messages)`; and truthy
`id`, `sender`, `content`, `timestamp` on every message. -/
def validateConversation (conversation : Json) : Except String Unit :=
  if !(conversation.truthy && (conversation.get "metadata").truthy
      && (conversation.get "messages").truthy) then
    Except.error "Invalid conversation format: missing required properties"
  else if !(((conversation.get "metadata").get "id").truthy
      && ((conversation.get "metadata").get "createdAt").isNumber
      && ((conversation.get "metadata").get "updatedAt").isNumber) then
    Except.error "Invalid conversation metadata"
  else
    match conversation.get "messages" with
    | .arr msgs =>
        if msgs.all (fun m =>
            (m.get "id").truthy && (m.get "sender").truthy
            && (m.get "content").truthy && (m.get "timestamp").truthy) then
          Except.ok ()
        else Except.error "Invalid message format: missing required properties"
    | _ => Except.error "Invalid messages format: not an array"

/-- One persisted localStorage cell as `loadConversation` sees it: either a
string on which `JSON.parse` throws (carrying the `SyntaxError` message) or
the JSON value it parses to.  A missing cell is `none` in the storage map
(`getItem` returns `null`; a falsy stored string is equivalent to a missing
cell, since the code checks `if (!conversationJson)`). -/
inductive RawCell where
  | unparsable (parseError : String)
  | parsed (value : Json)

/-- Store state over raw persisted cells.  The current-conversation subject
holds the (parsed) value that was last published. -/
structure RawStoreState where
  storage : String → Option RawCell
  index : List ConversationMetadata
  activeConversationId : Option String
  current : Option Json
  storageError : Option String

/-- Method `loadConversation` (lines 197-224) over raw cells: read the cell (a
missing one throws `not found`), parse it (an unparsable one throws the
parse error), validate it (a malformed one throws the validation error);
any of these failures lands in the `catch`, which emits
`Failed to load conversation <id>: <error>` and returns `false`, leaving
everything else untouched.  On success the conversation becomes active and
is republished, and the index entry's timestamp is refreshed. -/
def loadConversation (now : Nat) (s : RawStoreState) (conversationId : String) :
    RawStoreState × Bool :=
  match s.storage conversationId with
  | none =>
      ({ s with
         storageError := some ("Failed to load conversation " ++ conversationId
           ++ ": Conversation " ++ conversationId ++ " not found") },
       false)
  | some (.unparsable parseError) =>
      ({ s with
         storageError := some ("Failed to load conversation " ++ conversationId
           ++ ": " ++ parseError) },
       false)
  | some (.parsed conversation) =>
      match validateConversation conversation with
      | Except.error e =>
          ({ s with
             storageError := some ("Failed to load conversation " ++ conversationId
               ++ ": " ++ e) },
           false)
      | Except.ok _ =>
          ({ s with
             activeConversationId := some conversationId,
             current := some conversation,
             index := Store.updateTimestampInIndex now conversationId s.index },
           true)

end RawStore

/-! ## Concrete fixtures (used by witnesses and counterexamples) -/

namespace Fixtures

/-- A user message. -/
def userMsg : ChatMessage :=
  { id := "m1", sender := MessageSender.user, content := "Hello", timestamp := 1 }

/-- Fresh zeroed conversation metadata. -/
def freshMeta : ConversationMetadata :=
  { id := "c1",
    title := some "Conversation 1",
    createdAt := 1,
    updatedAt := 1,
    totalMessages := 0,
    userMessageCount := 0,
    aiMessageCount := 0,
    totalTokensUsed := some 0,
    tags := [],
    isFavorite := false,
    isArchived := false }

/-- A fresh empty conversation. -/
def freshConv : ChatHistory := { messages := [], metadata := freshMeta }

/-- A store holding the single fresh conversation `c1`, active. -/
def baseState : Store.StoreState :=
  { storage := fun k => if k = "c1" then some freshConv else none,
    index := [freshMeta],
    activeConversationId := some "c1",
    current := some freshConv,
    storageError := none,
    pendingSave := none }

/-- A store with nothing persisted and no active conversation. -/
def emptyState : Store.StoreState :=
  { storage := fun _ => none,
    index := [],
    activeConversationId := none,
    current := none,
    storageError := none,
    pendingSave := none }

/-- Metadata of a favorited conversation. -/
def favMeta : ConversationMetadata := { freshMeta with id := "c2", isFavorite := true }

/-- A favorited conversation. -/
def favConv : ChatHistory := { messages := [], metadata := favMeta }

/-- A store holding the favorited conversation `c2`, active. -/
def favState : Store.StoreState :=
  { storage := fun k => if k = "c2" then some favConv else none,
    index := [favMeta],
    activeConversationId := some "c2",
    current := some favConv,
    storageError := none,
    pendingSave := none }

/-- Metadata of a stored conversation with title `"T"`. -/
def origMeta : ConversationMetadata :=
  { id := "a",
    title := some "T",
    createdAt := 1,
    updatedAt := 2,
    totalMessages := 1,
    userMessageCount := 1,
    aiMessageCount := 0,
    totalTokensUsed := some 0,
    tags := [],
    isFavorite := false,
    isArchived := false }

/-- A stored one-message conversation with title `"T"`. -/
def origConv : ChatHistory :=
  { messages := [userMsg], metadata := origMeta }

/-- A store holding `origConv` (persisted and indexed, so its id collides on
re-import), active. -/
def exportState : Store.StoreState :=
  { storage := fun k => if k = "a" then some origConv else none,
    index := [origMeta],
    activeConversationId := some "a",
    current := some origConv,
    storageError := none,
    pendingSave := none }

/-- A raw store with nothing persisted. -/
def emptyRawState : RawStore.RawStoreState :=
  { storage := fun _ => none,
    index := [],
    activeConversationId := none,
    current := none,
    storageError := none }

/-- A list of 101 `addMessage` calls (one more than the message cap of 100). -/
def calls101 : List (Nat × String × ChatMessage) :=
  List.replicate 101 (1, "f", userMsg)

end Fixtures

/-! ## Helper lemmas -/

/-- Pushing entries into a fold-accumulated list equals appending the
filtered map (the loop body of `formatConversationForApi`). -/
theorem foldl_push_filterMap (history : List ChatMessage)
    (acc0 : List OpenAIChatMessage) :
    history.foldl
      (fun acc message =>
        if message.sender = MessageSender.system ∨ message.isError = true then acc
        else
          acc ++ [{ role := if message.sender = MessageSender.user then "user" else "assistant",
                    content := message.content }])
      acc0 =
    acc0 ++ (history.filter
        (fun message => !(message.sender == MessageSender.system || message.isError))).map
      (fun message =>
        { role := if message.sender = MessageSender.user then "user" else "assistant",
          content := message.content }) := by
  induction history generalizing acc0 with
  | nil => simp
  | cons m rest ih =>
      by_cases h : m.sender = MessageSender.system ∨ m.isError = true
      · have hb : (!(m.sender == MessageSender.system || m.isError)) = false := by
          rcases h with h | h <;> simp [h]
        rw [List.foldl_cons, if_pos h, ih, List.filter_cons, hb]
        simp
      · have hb : (!(m.sender == MessageSender.system || m.isError)) = true := by
          push_neg at h
          simp [h.1, h.2]
        rw [List.foldl_cons, if_neg h, ih, List.filter_cons, hb]
        simp

/-- A malformed line is a no-op for `processLine`. -/
theorem processLine_malformed (st : Assembler.AssemblerState) :
    Assembler.processLine st Assembler.StreamLine.malformed = st := rfl

/-- Effect of one non-empty delta line on the assembler state. -/
theorem processLine_deltaLine (st : Assembler.AssemblerState) (d : String)
    (h : d ≠ "") :
    Assembler.processLine st (Assembler.deltaLine d) =
      { st with
        acc := { st.acc with content := st.acc.content ++ d },
        emitted := st.emitted ++ [{ st.acc with content := st.acc.content ++ d }] } := by
  simp [Assembler.processLine, Assembler.deltaLine, h]

/-- Folding a list of non-empty delta lines: the accumulated content grows
by the concatenation of the deltas, and one snapshot per delta is emitted,
holding each successive prefix concatenation. -/
theorem foldl_deltaLines (ds : List String) (h : ∀ d ∈ ds, d ≠ "")
    (m0 : ChatMessage) (es : List ChatMessage) (tok : Nat) :
    (ds.map Assembler.deltaLine).foldl Assembler.processLine ⟨m0, es, tok⟩ =
      ⟨{ m0 with content := m0.content ++ Assembler.concatAll ds },
       es ++ (Assembler.prefConcats ds).map
         (fun p => { m0 with content := m0.content ++ p }),
       tok⟩ := by
  induction ds generalizing m0 es with
  | nil => simp [Assembler.concatAll, Assembler.prefConcats]
  | cons d rest ih =>
      have hd : d ≠ "" := h d (List.mem_cons_self d rest)
      rw [List.map_cons, List.foldl_cons, processLine_deltaLine _ _ hd]
      rw [ih (fun x hx => h x (List.mem_cons_of_mem _ hx))]
      simp [Assembler.concatAll, Assembler.prefConcats, String.append_assoc,
        List.map_map, Function.comp]

/-- Helper: `prefConcats` has one entry per delta. -/
theorem prefConcats_length (ds : List String) :
    (Assembler.prefConcats ds).length = ds.length := by
  induction ds with
  | nil => rfl
  | cons d rest ih => simp [Assembler.prefConcats, ih]

/-! ## Claims -/

/-- C9: for every history list and new user message, the provider request's
message list built by `sendMessage` (via `formatConversationForApi`) begins
with the fixed system instruction, then contains exactly the history entries
whose sender is not `system` and which are not error-flagged, in order,
mapped to role `"user"` for user-sender and `"assistant"` otherwise with
content unchanged, and ends with the new user message as a `"user"` turn. -/
theorem formatConversationForApi_spec (history : List ChatMessage)
    (newUserMessage : String) :
    AiService.formatConversationForApi history newUserMessage =
      { role := "system", content := AiService.systemInstruction } ::
        ((history.filter
            (fun m => !(m.sender == MessageSender.system || m.isError))).map
          (fun m =>
            { role := if m.sender = MessageSender.user then "user" else "assistant",
              content := m.content })
          ++ [{ role := "user", content := newUserMessage }]) := by
  unfold AiService.formatConversationForApi
  dsimp only
  rw [foldl_push_filterMap]
  simp

/-- C2: for any sequence of (non-empty) content deltas `d1..dn` delivered to
the stream assembler followed by end-of-input, the emitted message contents
are exactly the prefix concatenations `d1, d1+d2, ..., d1+...+dn` followed
by the end-of-input re-emission of the complete content (§4.3 DONE: "emit
the final message once more"), every emission before end-of-input is
pending, and the final emitted message has `isPending = false`.  (The code
treats an event as carrying a content delta iff
`json.choices[0]?.delta?.content` is truthy, i.e. a non-empty string, hence
the `d ≠ ""` hypothesis.) -/
theorem stream_monotonicity (modelName : String) (startTime now : Nat)
    (id : String) (ts tok0 : Nat) (ds : List String) (h : ∀ d ∈ ds, d ≠ "") :
    (Assembler.processStream modelName startTime now id ts tok0
        (ds.map Assembler.deltaLine)).emitted.map (fun m => m.content)
      = Assembler.prefConcats ds ++ [Assembler.concatAll ds] ∧
    (Assembler.processStream modelName startTime now id ts tok0
        (ds.map Assembler.deltaLine)).emitted.map (fun m => m.isPending)
      = List.replicate ds.length true ++ [false] := by
  unfold Assembler.processStream Assembler.initialState
  rw [foldl_deltaLines ds h]
  simp [Assembler.finishStream, Assembler.initialMessage, List.map_map,
    Function.comp_def, String.empty_append, prefConcats_length, List.map_const']

/-- Witness for C2 at the spec's own scenario: deltas `"He"`, `"llo"`. -/
theorem stream_monotonicity_witness :
    (Assembler.processStream "gpt-3.5-turbo" 0 7 "x" 1 0
        (["He", "llo"].map Assembler.deltaLine)).emitted.map (fun m => m.content)
      = Assembler.prefConcats ["He", "llo"] ++ [Assembler.concatAll ["He", "llo"]] ∧
    (Assembler.processStream "gpt-3.5-turbo" 0 7 "x" 1 0
        (["He", "llo"].map Assembler.deltaLine)).emitted.map (fun m => m.isPending)
      = List.replicate (["He", "llo"] : List String).length true ++ [false] :=
  stream_monotonicity "gpt-3.5-turbo" 0 7 "x" 1 0 ["He", "llo"] (by decide)

/-- C6: a malformed (unparsable) line anywhere in the stream is skipped
without terminating it — processing with the malformed line equals
processing without it — and in particular for one unparsable line between
two valid delta events both deltas are applied and the stream reaches
normal completion, the final emission carrying the full content with
`isPending = false`. -/
theorem malformed_line_recovery (modelName : String) (startTime now : Nat)
    (id : String) (ts tok0 : Nat) (d1 d2 : String) (h1 : d1 ≠ "") (h2 : d2 ≠ "") :
    (∀ pre post : List Assembler.StreamLine,
       Assembler.processStream modelName startTime now id ts tok0
           (pre ++ Assembler.StreamLine.malformed :: post)
         = Assembler.processStream modelName startTime now id ts tok0 (pre ++ post)) ∧
    (Assembler.processStream modelName startTime now id ts tok0
        [Assembler.deltaLine d1, Assembler.StreamLine.malformed,
         Assembler.deltaLine d2]).emitted.map (fun m => m.content)
      = [d1, d1 ++ d2, d1 ++ d2] ∧
    (Assembler.processStream modelName startTime now id ts tok0
        [Assembler.deltaLine d1, Assembler.StreamLine.malformed,
         Assembler.deltaLine d2]).emitted.map (fun m => m.isPending)
      = [true, true, false] := by
  have e1 := fun st => processLine_deltaLine st d1 h1
  have e2 := fun st => processLine_deltaLine st d2 h2
  refine ⟨?_, ?_, ?_⟩
  · intro pre post
    unfold Assembler.processStream
    rw [List.foldl_append, List.foldl_cons, processLine_malformed,
      ← List.foldl_append]
  · simp [Assembler.processStream, Assembler.initialState, Assembler.initialMessage,
      Assembler.finishStream, e1, e2, processLine_malformed, String.empty_append]
  · simp [Assembler.processStream, Assembler.initialState, Assembler.initialMessage,
      Assembler.finishStream, e1, e2, processLine_malformed]

/-- A list of length at most `n` is its own last-`n` suffix. -/
theorem lastN_of_le (n : Nat) (l : List ChatMessage) (h : l.length ≤ n) :
    Store.lastN n l = l := by
  unfold Store.lastN
  rw [Nat.sub_eq_zero_of_le h, List.drop_zero]

/-- When a cons exceeds `n`, the head falls off the last-`n` suffix. -/
theorem lastN_cons_of_lt (n : Nat) (x : ChatMessage) (l : List ChatMessage)
    (h : n < (x :: l).length) :
    Store.lastN n (x :: l) = Store.lastN n l := by
  unfold Store.lastN
  simp only [List.length_cons] at h ⊢
  rw [show l.length + 1 - n = (l.length - n) + 1 by omega]
  rfl

/-- Taking the last `n` of a list already truncated to its last `n` is
taking the last `n` of the whole. -/
theorem lastN_append_lastN (n : Nat) (l r : List ChatMessage) :
    Store.lastN n (Store.lastN n l ++ r) = Store.lastN n (l ++ r) := by
  induction l with
  | nil => simp [Store.lastN]
  | cons x l2 ih =>
      by_cases h : (x :: l2).length ≤ n
      · rw [lastN_of_le n _ h]
      · push_neg at h
        rw [lastN_cons_of_lt n x l2 h]
        have h3 : n < ((x :: l2) ++ r).length := by
          simp only [List.length_append, List.length_cons] at h ⊢
          omega
        rw [show (x :: l2) ++ r = x :: (l2 ++ r) from rfl,
          lastN_cons_of_lt n x (l2 ++ r) h3, ih]

/-- Length of the last-`n` suffix. -/
theorem lastN_length (n : Nat) (l : List ChatMessage) :
    (Store.lastN n l).length = l.length - (l.length - n) := by
  unfold Store.lastN
  rw [List.length_drop]

/-- Helper: `convAdd` appends the message and then truncates to the last
`maxHistoryItems` entries. -/
theorem convAdd_messages (maxH : Nat) (c : ChatHistory) (m : ChatMessage) :
    (Store.convAdd maxH c m).messages = Store.lastN maxH (c.messages ++ [m]) := by
  unfold Store.convAdd
  dsimp only
  split
  · rfl
  · next hlen =>
      rw [lastN_of_le maxH _ (by omega)]

/-- Helper: `convAdd` bumps `totalMessages` by one, bumps the user/ai counters by at
most one in total, and never touches the conversation id or creation
time. -/
theorem convAdd_metadata_counts (maxH : Nat) (c : ChatHistory) (m : ChatMessage) :
    (Store.convAdd maxH c m).metadata.totalMessages = c.metadata.totalMessages + 1 ∧
    (Store.convAdd maxH c m).metadata.userMessageCount
        + (Store.convAdd maxH c m).metadata.aiMessageCount
      ≤ c.metadata.userMessageCount + c.metadata.aiMessageCount + 1 ∧
    (Store.convAdd maxH c m).metadata.id = c.metadata.id ∧
    (Store.convAdd maxH c m).metadata.createdAt = c.metadata.createdAt := by
  unfold Store.convAdd
  dsimp only
  repeat' split
  all_goals simp
  all_goals omega

/-- The counter invariant survives `convAdd`. -/
theorem convAdd_countersOk (maxH : Nat) (c : ChatHistory) (m : ChatMessage)
    (h : Store.countersOk c.metadata = true) :
    Store.countersOk (Store.convAdd maxH c m).metadata = true := by
  have hc := convAdd_metadata_counts maxH c m
  unfold Store.countersOk at h ⊢
  simp only [decide_eq_true_eq] at h ⊢
  omega

/-- Helper: `convFold` adds one to `totalMessages` per appended message. -/
theorem convFold_totalMessages (maxH : Nat) (c : ChatHistory)
    (ms : List ChatMessage) :
    (Store.convFold maxH c ms).metadata.totalMessages
      = c.metadata.totalMessages + ms.length := by
  induction ms generalizing c with
  | nil => rfl
  | cons m rest ih =>
      unfold Store.convFold at ih ⊢
      rw [List.foldl_cons, ih, (convAdd_metadata_counts maxH c m).1,
        List.length_cons]
      omega

/-- Helper: `convFold` from a conversation within the cap keeps exactly the last
`maxHistoryItems` of all messages ever appended, in order. -/
theorem convFold_messages (maxH : Nat) (c : ChatHistory) (ms : List ChatMessage)
    (h : c.messages.length ≤ maxH) :
    (Store.convFold maxH c ms).messages = Store.lastN maxH (c.messages ++ ms) := by
  induction ms generalizing c with
  | nil =>
      unfold Store.convFold
      rw [List.foldl_nil, List.append_nil, lastN_of_le maxH _ h]
  | cons m rest ih =>
      unfold Store.convFold at ih ⊢
      rw [List.foldl_cons]
      have hlen : (Store.convAdd maxH c m).messages.length ≤ maxH := by
        rw [convAdd_messages, lastN_length]
        omega
      rw [ih _ hlen, convAdd_messages, lastN_append_lastN,
        List.append_cons c.messages m rest]

/-- A sequence of `addMessage` calls on a state with a current conversation
folds `convAdd` over that conversation (and never touches `storage`). -/
theorem addMessages_current (maxH : Nat) (s : Store.StoreState)
    (calls : List (Nat × String × ChatMessage)) (c : ChatHistory)
    (hcur : s.current = some c) :
    (Store.addMessages maxH s calls).current
      = some (Store.convFold maxH c (calls.map (fun p => p.2.2))) ∧
    (Store.addMessages maxH s calls).storage = s.storage := by
  induction calls generalizing s c with
  | nil =>
      unfold Store.addMessages
      rw [List.foldl_nil, hcur]
      exact ⟨rfl, rfl⟩
  | cons p rest ih =>
      unfold Store.addMessages at ih ⊢
      rw [List.foldl_cons]
      have hstep : Store.addMessage maxH p.1 p.2.1 s p.2.2
          = Store.addMessageBody maxH s c p.2.2 := by
        unfold Store.addMessage
        rw [hcur]
      rw [hstep]
      have hcur2 : (Store.addMessageBody maxH s c p.2.2).current
          = some (Store.convAdd maxH c p.2.2) := rfl
      obtain ⟨h1, h2⟩ := ih (Store.addMessageBody maxH s c p.2.2) _ hcur2
      refine ⟨?_, ?_⟩
      · rw [h1]
        unfold Store.convFold
        rw [List.map_cons, List.foldl_cons]
      · rw [h2]
        rfl

/-- Witness for C6: deltas `"a"`, `"b"` around one malformed line. -/
theorem malformed_line_recovery_witness :
    (∀ pre post : List Assembler.StreamLine,
       Assembler.processStream "gpt-3.5-turbo" 0 7 "x" 1 0
           (pre ++ Assembler.StreamLine.malformed :: post)
         = Assembler.processStream "gpt-3.5-turbo" 0 7 "x" 1 0 (pre ++ post)) ∧
    (Assembler.processStream "gpt-3.5-turbo" 0 7 "x" 1 0
        [Assembler.deltaLine "a", Assembler.StreamLine.malformed,
         Assembler.deltaLine "b"]).emitted.map (fun m => m.content)
      = ["a", "a" ++ "b", "a" ++ "b"] ∧
    (Assembler.processStream "gpt-3.5-turbo" 0 7 "x" 1 0
        [Assembler.deltaLine "a", Assembler.StreamLine.malformed,
         Assembler.deltaLine "b"]).emitted.map (fun m => m.isPending)
      = [true, true, false] :=
  malformed_line_recovery "gpt-3.5-turbo" 0 7 "x" 1 0 "a" "b" (by decide) (by decide)

/-- C1 counterexample: starting from a fresh active conversation, 101
`addMessage` calls at the service's cap of `MAX_HISTORY_ITEMS = 100` leave
`metadata.totalMessages = 101` but only 100 retained messages, so after the
cap triggers eviction `totalMessages` is *not* the length of `messages`
(the eviction slice never adjusts the counters). -/
theorem addMessage_total_vs_length_cex :
    ∃ c : ChatHistory,
      (Store.addMessages MAX_HISTORY_ITEMS Fixtures.baseState
          Fixtures.calls101).current = some c
      ∧ c.metadata.totalMessages ≠ c.messages.length := by
  obtain ⟨hcur, -⟩ := addMessages_current MAX_HISTORY_ITEMS Fixtures.baseState
    Fixtures.calls101 Fixtures.freshConv rfl
  refine ⟨_, hcur, ?_⟩
  rw [convFold_totalMessages,
    convFold_messages MAX_HISTORY_ITEMS Fixtures.freshConv _ (by simp [Fixtures.freshConv]),
    lastN_length]
  simp [Fixtures.freshConv, Fixtures.freshMeta, Fixtures.calls101, MAX_HISTORY_ITEMS]

/-- C1 (amended): for every sequence of `addMessage` calls on a fresh active
conversation, after each call (equivalently, for the full fold over every
call sequence, hence over each of its prefixes) `metadata.totalMessages`
equals the number of messages appended so far, while the retained
`messages` list has length `min totalMessages MAX_HISTORY_ITEMS`; so
`totalMessages = len(messages)` holds exactly until the per-conversation
cap triggers eviction, and fails from the first eviction on. -/
theorem addMessage_totalMessages_amended (s : Store.StoreState)
    (c0 : ChatHistory) (hcur : s.current = some c0)
    (hmsgs : c0.messages = []) (htot : c0.metadata.totalMessages = 0)
    (calls : List (Nat × String × ChatMessage)) :
    ∃ c : ChatHistory,
      (Store.addMessages MAX_HISTORY_ITEMS s calls).current = some c ∧
      c.metadata.totalMessages = calls.length ∧
      c.messages.length = min calls.length MAX_HISTORY_ITEMS := by
  obtain ⟨h1, -⟩ := addMessages_current MAX_HISTORY_ITEMS s calls c0 hcur
  refine ⟨_, h1, ?_, ?_⟩
  · rw [convFold_totalMessages, htot, List.length_map, Nat.zero_add]
  · rw [convFold_messages MAX_HISTORY_ITEMS c0 _ (by rw [hmsgs]; simp),
      lastN_length, hmsgs, List.nil_append, List.length_map]
    omega

/-- Witness for C1 (amended): one call on the fresh base state. -/
theorem addMessage_totalMessages_amended_witness :
    ∃ c : ChatHistory,
      (Store.addMessages MAX_HISTORY_ITEMS Fixtures.baseState
          [(1, "f", Fixtures.userMsg)]).current = some c ∧
      c.metadata.totalMessages = [(1, "f", Fixtures.userMsg)].length ∧
      c.messages.length = min [(1, "f", Fixtures.userMsg)].length MAX_HISTORY_ITEMS :=
  addMessage_totalMessages_amended Fixtures.baseState Fixtures.freshConv rfl rfl rfl
    [(1, "f", Fixtures.userMsg)]

/-- C3: with the per-conversation cap `N = MAX_HISTORY_ITEMS`, after
appending `N + k` messages via `addMessage` to a fresh conversation, the
conversation retains exactly the last `N` appended messages in their
original relative order (`drop k` of the appended sequence — FIFO eviction
of the oldest). -/
theorem addMessage_eviction_keeps_lastN (s : Store.StoreState)
    (c0 : ChatHistory) (hcur : s.current = some c0) (hmsgs : c0.messages = [])
    (calls : List (Nat × String × ChatMessage)) (k : Nat)
    (hlen : calls.length = MAX_HISTORY_ITEMS + k) :
    ∃ c : ChatHistory,
      (Store.addMessages MAX_HISTORY_ITEMS s calls).current = some c ∧
      c.messages = (calls.map (fun p => p.2.2)).drop k := by
  obtain ⟨h1, -⟩ := addMessages_current MAX_HISTORY_ITEMS s calls c0 hcur
  refine ⟨_, h1, ?_⟩
  rw [convFold_messages MAX_HISTORY_ITEMS c0 _ (by rw [hmsgs]; simp), hmsgs,
    List.nil_append]
  unfold Store.lastN
  rw [List.length_map, hlen, Nat.add_sub_cancel_left]

/-- Witness for C3: 101 calls at the cap of 100 (`k = 1`). -/
theorem addMessage_eviction_keeps_lastN_witness :
    ∃ c : ChatHistory,
      (Store.addMessages MAX_HISTORY_ITEMS Fixtures.baseState
          Fixtures.calls101).current = some c ∧
      c.messages = (Fixtures.calls101.map (fun p => p.2.2)).drop 1 :=
  addMessage_eviction_keeps_lastN Fixtures.baseState Fixtures.freshConv rfl rfl
    Fixtures.calls101 1 (by simp [Fixtures.calls101, MAX_HISTORY_ITEMS])

/-- Helper: `addMessage` with no current conversation first creates (and reloads) a
fresh zero-counter conversation and then applies the ordinary add to it. -/
theorem addMessage_none_current (maxH now : Nat) (fid : String)
    (s : Store.StoreState) (m : ChatMessage) (hcur : s.current = none) :
    ∃ c0 : ChatHistory,
      c0.metadata.userMessageCount = 0 ∧
      c0.metadata.aiMessageCount = 0 ∧
      c0.metadata.totalMessages = 0 ∧
      (Store.addMessage maxH now fid s m).current
        = some (Store.convAdd maxH c0 m) := by
  refine ⟨{ messages := [],
            metadata :=
              { id := fid,
                title := some (Store.defaultTitle none now),
                createdAt := now,
                updatedAt := now,
                totalMessages := 0,
                userMessageCount := 0,
                aiMessageCount := 0,
                totalTokensUsed := some 0,
                tags := [],
                isFavorite := false,
                isArchived := false } }, rfl, rfl, rfl, ?_⟩
  by_cases hfid : fid = ""
  · simp [Store.addMessage, hcur, Store.createNewConversation,
      Store.saveConversation, Store.setStorage, Store.loadConversation,
      Store.validateChatHistory, hfid, Store.addMessageBody]
  · simp [Store.addMessage, hcur, Store.createNewConversation,
      Store.saveConversation, Store.setStorage, Store.loadConversation,
      Store.validateChatHistory, hfid, Store.addMessageBody]

/-- Every Store-owned mutation preserves the counter invariant on the
active conversation. -/
theorem runOp_countersOk (s : Store.StoreState) (op : Store.StoreOp)
    (h : Store.stateCountersOk s = true) :
    Store.stateCountersOk (Store.runOp s op) = true := by
  cases op with
  | createOp now fid title =>
      simp [Store.runOp, Store.createNewConversation, Store.saveConversation,
        Store.stateCountersOk, Store.countersOk]
  | addOp now fid m =>
      cases hcur : s.current with
      | some c =>
          have hc : Store.countersOk c.metadata = true := by
            unfold Store.stateCountersOk at h
            rw [hcur] at h
            exact h
          have hstep : Store.addMessage MAX_HISTORY_ITEMS now fid s m
              = Store.addMessageBody MAX_HISTORY_ITEMS s c m := by
            unfold Store.addMessage
            rw [hcur]
          simp only [Store.runOp]
          rw [hstep]
          unfold Store.stateCountersOk Store.addMessageBody
          dsimp only
          exact convAdd_countersOk _ c m hc
      | none =>
          obtain ⟨c0, hu, ha, ht, hafter⟩ :=
            addMessage_none_current MAX_HISTORY_ITEMS now fid s m hcur
          simp only [Store.runOp]
          unfold Store.stateCountersOk
          rw [hafter]
          apply convAdd_countersOk
          unfold Store.countersOk
          simp [hu, ha, ht]
  | clearOp now =>
      cases hcur : s.current with
      | none =>
          simp only [Store.runOp]
          unfold Store.clearCurrentConversation
          rw [hcur]
          exact h
      | some c =>
          simp only [Store.runOp]
          unfold Store.clearCurrentConversation
          rw [hcur]
          simp [Store.saveConversation, Store.stateCountersOk, Store.countersOk]

/-- C7: for every sequence of Store-owned mutations
(`createNewConversation`, `addMessage`, `clearCurrentConversation`) from a
state whose active conversation satisfies it (vacuously, a state with no
active conversation), the active conversation's metadata satisfies
`userMessageCount + aiMessageCount ≤ totalMessages` — system-sender
messages bump `totalMessages` only.  Quantifying over every op sequence
covers every prefix, i.e. the invariant holds after each mutation. -/
theorem counters_invariant_ops (s : Store.StoreState)
    (h : Store.stateCountersOk s = true) (ops : List Store.StoreOp) :
    Store.stateCountersOk (Store.runOps s ops) = true := by
  induction ops generalizing s with
  | nil => exact h
  | cons op rest ih =>
      unfold Store.runOps at ih ⊢
      rw [List.foldl_cons]
      exact ih _ (runOp_countersOk s op h)

/-- Witness for C7: an add followed by a clear from the empty store. -/
theorem counters_invariant_ops_witness :
    Store.stateCountersOk (Store.runOps Fixtures.emptyState
      [Store.StoreOp.addOp 1 "f" Fixtures.userMsg,
       Store.StoreOp.clearOp 2]) = true :=
  counters_invariant_ops Fixtures.emptyState rfl
    [Store.StoreOp.addOp 1 "f" Fixtures.userMsg, Store.StoreOp.clearOp 2]

/-- C8: for every active conversation, `clearCurrentConversation` returns
`true` and publishes a conversation with empty messages and
`totalMessages`, `userMessageCount`, `aiMessageCount`, `totalTokensUsed`
all zero, preserving the conversation's id and `createdAt`; the cleared
conversation is written to its storage cell in the same step (immediate
`saveConversation`), and the debounced save queue is untouched (the clear
bypasses it). -/
theorem clearCurrentConversation_spec (now : Nat) (s : Store.StoreState)
    (c : ChatHistory) (hcur : s.current = some c) :
    (Store.clearCurrentConversation now s).2 = true ∧
    ∃ c2 : ChatHistory,
      (Store.clearCurrentConversation now s).1.current = some c2 ∧
      c2.messages = [] ∧
      c2.metadata.totalMessages = 0 ∧
      c2.metadata.userMessageCount = 0 ∧
      c2.metadata.aiMessageCount = 0 ∧
      c2.metadata.totalTokensUsed = some 0 ∧
      c2.metadata.id = c.metadata.id ∧
      c2.metadata.createdAt = c.metadata.createdAt ∧
      (Store.clearCurrentConversation now s).1.storage c.metadata.id = some c2 ∧
      (Store.clearCurrentConversation now s).1.pendingSave = s.pendingSave := by
  unfold Store.clearCurrentConversation
  rw [hcur]
  dsimp only
  refine ⟨rfl, _, rfl, rfl, rfl, rfl, rfl, rfl, rfl, rfl, ?_, rfl⟩
  simp [Store.saveConversation, Store.setStorage]

/-- Witness for C8: clearing the base state's fresh conversation. -/
theorem clearCurrentConversation_spec_witness :
    (Store.clearCurrentConversation 5 Fixtures.baseState).2 = true ∧
    ∃ c2 : ChatHistory,
      (Store.clearCurrentConversation 5 Fixtures.baseState).1.current = some c2 ∧
      c2.messages = [] ∧
      c2.metadata.totalMessages = 0 ∧
      c2.metadata.userMessageCount = 0 ∧
      c2.metadata.aiMessageCount = 0 ∧
      c2.metadata.totalTokensUsed = some 0 ∧
      c2.metadata.id = Fixtures.freshConv.metadata.id ∧
      c2.metadata.createdAt = Fixtures.freshConv.metadata.createdAt ∧
      (Store.clearCurrentConversation 5 Fixtures.baseState).1.storage
          Fixtures.freshConv.metadata.id = some c2 ∧
      (Store.clearCurrentConversation 5 Fixtures.baseState).1.pendingSave
        = Fixtures.baseState.pendingSave :=
  clearCurrentConversation_spec 5 Fixtures.baseState Fixtures.freshConv rfl

/-- C10: `toggleFavorite(id)` returns the conversation's *new* favorite
state on success, but returns `false` on failure (here: the id has no
storage cell), emitting an error on the storage error channel and changing
no other state — so a caller cannot tell a successful un-favorite (which
also returns `false`) from a failed operation. -/
theorem toggleFavorite_ambiguous_false (now : Nat) (s : Store.StoreState)
    (conversationId : String) :
    (s.storage conversationId = none →
       Store.toggleFavorite now s conversationId =
         ({ s with
            storageError := some ("Failed to toggle favorite for "
              ++ conversationId ++ ": Conversation " ++ conversationId
              ++ " not found") },
          false)) ∧
    (∀ c : ChatHistory, s.storage conversationId = some c →
       (Store.toggleFavorite now s conversationId).2
         = !c.metadata.isFavorite) := by
  constructor
  · intro h
    unfold Store.toggleFavorite
    rw [h]
  · intro c h
    unfold Store.toggleFavorite
    rw [h]
    dsimp only
    simp [Store.saveConversation]

/-- Witness for C10: a failing toggle on the empty store returns `false`
and only sets the error channel; a successful toggle on a favorited
conversation also returns `false` (the new state). -/
theorem toggleFavorite_ambiguous_false_witness :
    (Store.toggleFavorite 3 Fixtures.emptyState "nope" =
      ({ Fixtures.emptyState with
         storageError := some ("Failed to toggle favorite for " ++ "nope"
           ++ ": Conversation " ++ "nope" ++ " not found") },
       false)) ∧
    (Store.toggleFavorite 3 Fixtures.favState "c2").2
      = !Fixtures.favConv.metadata.isFavorite :=
  ⟨(toggleFavorite_ambiguous_false 3 Fixtures.emptyState "nope").1 rfl,
   (toggleFavorite_ambiguous_false 3 Fixtures.favState "c2").2 Fixtures.favConv rfl⟩

/-- C4 counterexample: for a stored (and indexed) conversation with title
`"T"`, `importConversation(exportConversation("a"))` yields a conversation
whose title is `"T (Imported)"` — the collision-triggered rename also
rewrites the title (and `saveConversation` refreshes `updatedAt`), so the
result's metadata is *not* equal to the original's even apart from the
id. -/
theorem export_import_roundtrip_cex :
    (Store.exportConversation Fixtures.exportState (some "a")).2
      = some Fixtures.origConv ∧
    ∃ c2 : ChatHistory,
      (Store.importConversation 5 "b" Fixtures.exportState
          (Except.ok Fixtures.origConv) false).1.current = some c2 ∧
      c2.metadata.title = some "T (Imported)" ∧
      Fixtures.origConv.metadata.title = some "T" ∧
      c2.metadata.title ≠ Fixtures.origConv.metadata.title := by
  refine ⟨rfl, ?_⟩
  refine ⟨_, rfl, ?_, rfl, ?_⟩ <;> decide

/-- C4 (amended): exporting a stored valid conversation returns it
unchanged, and importing that export yields a conversation with equal
messages and equal metadata *except that* `updatedAt` is stamped with the
import's save time, and — when the conversation's id is still in the index
(an id collision, the normal case for an unmodified stored conversation) —
the id is replaced by a fresh one and the title is annotated with an
`" (Imported)"` suffix. -/
theorem export_import_roundtrip_amended (s : Store.StoreState) (id : String)
    (c : ChatHistory) (now : Nat) (freshId : String) (hid : id ≠ "")
    (hstore : s.storage id = some c)
    (hvalid : Store.validateChatHistory c = Except.ok ()) :
    Store.exportConversation s (some id) = (s, some c) ∧
    ∃ c2 : ChatHistory,
      (Store.importConversation now freshId s (Except.ok c) false).1.current
        = some c2 ∧
      (Store.importConversation now freshId s (Except.ok c) false).2
        = some c2.metadata.id ∧
      c2.messages = c.messages ∧
      c2.metadata.createdAt = c.metadata.createdAt ∧
      c2.metadata.totalMessages = c.metadata.totalMessages ∧
      c2.metadata.userMessageCount = c.metadata.userMessageCount ∧
      c2.metadata.aiMessageCount = c.metadata.aiMessageCount ∧
      c2.metadata.totalTokensUsed = c.metadata.totalTokensUsed ∧
      c2.metadata.tags = c.metadata.tags ∧
      c2.metadata.isFavorite = c.metadata.isFavorite ∧
      c2.metadata.isArchived = c.metadata.isArchived ∧
      c2.metadata.updatedAt = now ∧
      (if s.index.any (fun md => md.id == c.metadata.id) then
        c2.metadata.id = freshId ∧
        c2.metadata.title = some (Store.importedTitle c.metadata.title)
      else
        c2.metadata.id = c.metadata.id ∧
        c2.metadata.title = c.metadata.title) := by
  constructor
  · simp only [Store.exportConversation]
    rw [if_pos hid]
    dsimp only
    rw [if_neg hid, hstore]
  · simp only [Store.importConversation, Store.saveConversation, hvalid,
      Bool.not_false, Bool.and_true]
    by_cases hex : s.index.any (fun md => md.id == c.metadata.id) = true
    · rw [if_pos hex]
      refine ⟨_, rfl, rfl, rfl, rfl, rfl, rfl, rfl, rfl, rfl, rfl, rfl, rfl, ?_⟩
      rw [if_pos hex]
      exact ⟨rfl, rfl⟩
    · rw [if_neg hex]
      refine ⟨_, rfl, rfl, rfl, rfl, rfl, rfl, rfl, rfl, rfl, rfl, rfl, rfl, ?_⟩
      rw [if_neg hex]
      exact ⟨rfl, rfl⟩

/-- Witness for C4 (amended) at the stored conversation `"a"` (collision
case). -/
theorem export_import_roundtrip_amended_witness :
    Store.exportConversation Fixtures.exportState (some "a")
      = (Fixtures.exportState, some Fixtures.origConv) ∧
    ∃ c2 : ChatHistory,
      (Store.importConversation 5 "b" Fixtures.exportState
          (Except.ok Fixtures.origConv) false).1.current = some c2 ∧
      (Store.importConversation 5 "b" Fixtures.exportState
          (Except.ok Fixtures.origConv) false).2 = some c2.metadata.id ∧
      c2.messages = Fixtures.origConv.messages ∧
      c2.metadata.createdAt = Fixtures.origConv.metadata.createdAt ∧
      c2.metadata.totalMessages = Fixtures.origConv.metadata.totalMessages ∧
      c2.metadata.userMessageCount = Fixtures.origConv.metadata.userMessageCount ∧
      c2.metadata.aiMessageCount = Fixtures.origConv.metadata.aiMessageCount ∧
      c2.metadata.totalTokensUsed = Fixtures.origConv.metadata.totalTokensUsed ∧
      c2.metadata.tags = Fixtures.origConv.metadata.tags ∧
      c2.metadata.isFavorite = Fixtures.origConv.metadata.isFavorite ∧
      c2.metadata.isArchived = Fixtures.origConv.metadata.isArchived ∧
      c2.metadata.updatedAt = 5 ∧
      (if Fixtures.exportState.index.any
          (fun md => md.id == Fixtures.origConv.metadata.id) then
        c2.metadata.id = "b" ∧
        c2.metadata.title
          = some (Store.importedTitle Fixtures.origConv.metadata.title)
      else
        c2.metadata.id = Fixtures.origConv.metadata.id ∧
        c2.metadata.title = Fixtures.origConv.metadata.title) :=
  export_import_roundtrip_amended Fixtures.exportState "a" Fixtures.origConv 5 "b"
    (by decide) rfl rfl

/-- C5: whenever `loadConversation(id)` fails — the record is missing,
`JSON.parse` throws on it, or validation rejects it — the result is `false`,
the storage error channel carries `Failed to load conversation <id>: ...`,
and *nothing else changes*: the resulting state equals the input state with
only `storageError` replaced, so the previously active conversation id and
the published current-conversation snapshot are untouched. -/
theorem loadConversation_failure_frame (now : Nat) (s : RawStore.RawStoreState)
    (conversationId : String) :
    (s.storage conversationId = none →
       RawStore.loadConversation now s conversationId =
         ({ s with
            storageError := some ("Failed to load conversation "
              ++ conversationId ++ ": Conversation " ++ conversationId
              ++ " not found") },
          false)) ∧
    (∀ parseError : String,
       s.storage conversationId = some (RawStore.RawCell.unparsable parseError) →
       RawStore.loadConversation now s conversationId =
         ({ s with
            storageError := some ("Failed to load conversation "
              ++ conversationId ++ ": " ++ parseError) },
          false)) ∧
    (∀ (j : RawStore.Json) (e : String),
       s.storage conversationId = some (RawStore.RawCell.parsed j) →
       RawStore.validateConversation j = Except.error e →
       RawStore.loadConversation now s conversationId =
         ({ s with
            storageError := some ("Failed to load conversation "
              ++ conversationId ++ ": " ++ e) },
          false)) := by
  refine ⟨?_, ?_, ?_⟩
  · intro h
    unfold RawStore.loadConversation
    rw [h]
  · intro parseError h
    unfold RawStore.loadConversation
    rw [h]
  · intro j e h hv
    unfold RawStore.loadConversation
    rw [h]
    dsimp only
    rw [hv]

/-- Witness for C5: loading a missing id from the empty raw store. -/
theorem loadConversation_failure_frame_witness :
    RawStore.loadConversation 4 Fixtures.emptyRawState "x" =
      ({ Fixtures.emptyRawState with
         storageError := some ("Failed to load conversation " ++ "x"
           ++ ": Conversation " ++ "x" ++ " not found") },
       false) :=
  (loadConversation_failure_frame 4 Fixtures.emptyRawState "x").1 rfl

end ChatApp
